import Mathlib

/-!
Verification of the form-validation helper of CaseFlowMobileRN
(`src/utils/formValidation`, given as `src/unnamed/part_000`).

The helper is a declarative rule evaluator: `validateForm` checks a report
record against a `ValidationConfig` (minimum image count, base required
fields, conditional-requirement rules, string-presence rules, an optional
custom predicate), and `useFormValidation` additionally classifies the
failure into one of three user-facing messages.

JavaScript record values are embedded as an inductive `Value` type whose
derived decidable equality coincides with JavaScript strict equality `===`
on the primitive values the evaluator compares (no implicit coercions).
A report record is an association list from field names to values;
`getField` models the property access `report[field]`, which yields
`undefined` for an absent key.  An absent report (`null` or `undefined`
argument, both falsy) is `Option.none`.
-/

namespace CaseFlow

/-- A JavaScript value as seen by the validator: `null`, `undefined`
(also the result of reading an absent property), a string, a number,
or a boolean. -/
inductive Value where
  | vNull : Value
  | vUndefined : Value
  | vStr : String → Value
  | vNum : Int → Value
  | vBool : Bool → Value
deriving DecidableEq, Repr

/-- A report record: a finite mapping from field names to values,
embedded as an association list (first binding wins, as a JS object
has one binding per key). -/
abbrev Report := List (String × Value)

/-- Property access `report[field]`: the bound value, or `undefined`
when the key is absent from the record. -/
def getField (report : Report) (field : String) : Value :=
  match report.find? (fun p => p.1 = field) with
  | some p => p.2
  | none => Value.vUndefined

/-- Modelled from the spec (the `CapturedImage` type is imported from a
`types` module that is not in the sources): an evidence image carries a
unique identifier, an encoded image payload, latitude, longitude and a
capture timestamp.  `validateForm` reads only the length of the image
array, never these attributes. -/
structure CapturedImage where
  id : String
  dataUrl : String
  latitude : Int
  longitude : Int
  timestamp : Int
deriving DecidableEq, Repr

/-- `ConditionalFieldConfig<T>` from the source: fields that become
required when `report[conditionField] === conditionValue`. -/
structure ConditionalFieldConfig where
  conditionField : String
  conditionValue : Value
  requiredFields : List String
deriving DecidableEq, Repr

/-- `StringFieldConfig<T>` from the source: `stringField` must be a
non-empty (after trim) string when the condition on `conditionField`
holds; the optional `negateCondition` flag (absent ≡ `undefined`,
falsy) inverts the condition. -/
structure StringFieldConfig where
  conditionField : String
  conditionValue : Value
  stringField : String
  negateCondition : Option Bool
deriving DecidableEq, Repr

/-- `ValidationConfig<T>` from the source.  `conditionalFields` and
`stringFields` are optional arrays; `customValidation` is an optional
predicate on the record. -/
structure ValidationConfig where
  minImages : Nat
  baseFields : List String
  conditionalFields : Option (List ConditionalFieldConfig)
  stringFields : Option (List StringFieldConfig)
  customValidation : Option (Report → Bool)

/-- JavaScript `String.prototype.trim()`: the string with leading and
trailing whitespace removed. -/
def jsTrim (s : String) : String :=
  ⟨((s.data.dropWhile Char.isWhitespace).reverse.dropWhile
      Char.isWhitespace).reverse⟩

/-- The body of `checkFields` for a single field: the value read from
the record is not `null`, not `undefined`, and not the empty string
(strict comparisons, so `0` and `false` pass). -/
def fieldOk (report : Report) (field : String) : Bool :=
  let value := getField report field
  value ≠ Value.vNull ∧ value ≠ Value.vUndefined ∧ value ≠ Value.vStr ""

/-- `checkFields` from `validateForm`: every listed field is valid. -/
def checkFields (report : Report) (fields : List String) : Bool :=
  fields.all (fun field => fieldOk report field)

/-- `checkStringField` from `validateForm`: the value is a string and
is non-empty after trimming whitespace. -/
def checkStringField (report : Report) (field : String) : Bool :=
  match getField report field with
  | Value.vStr s => jsTrim s ≠ ""
  | _ => false

/-- One iteration of the conditional-fields loop of `validateForm`:
when `report[conditionField] === conditionValue`, all of the rule's
required fields must pass `checkFields`. -/
def conditionalRuleOk (report : Report) (c : ConditionalFieldConfig) : Bool :=
  if getField report c.conditionField = c.conditionValue then
    checkFields report c.requiredFields
  else
    true

/-- One iteration of the string-fields loop of `validateForm`: the
condition is equality, inverted to inequality when `negateCondition`
is truthy; when the condition is met the target field must pass
`checkStringField`. -/
def stringRuleOk (report : Report) (sc : StringFieldConfig) : Bool :=
  let conditionMet :=
    if sc.negateCondition.getD false then
      getField report sc.conditionField ≠ sc.conditionValue
    else
      getField report sc.conditionField = sc.conditionValue
  if conditionMet then checkStringField report sc.stringField else true

/-- `validateForm` from the source: fail on an absent report, then on
too few images, then on a failing base field, conditional rule, string
rule, or custom predicate; otherwise succeed. -/
def validateForm (report : Option Report) (images : List CapturedImage)
    (config : ValidationConfig) : Bool :=
  match report with
  | none => false
  | some r =>
    if images.length < config.minImages then false
    else if ¬ checkFields r config.baseFields then false
    else if ¬ (config.conditionalFields.getD []).all
        (fun c => conditionalRuleOk r c) then false
    else if ¬ (config.stringFields.getD []).all
        (fun sc => stringRuleOk r sc) then false
    else
      match config.customValidation with
      | some f => f r
      | none => true

/-- `useFormValidation` from the source: the validity boolean together
with the classified error message (`none` when valid). -/
def useFormValidation (report : Option Report) (images : List CapturedImage)
    (config : ValidationConfig) : Bool × Option String :=
  let isValid := validateForm report images config
  let errorMessage : Option String :=
    if isValid then none
    else if report.isNone then some "Report data is not available."
    else if images.length < config.minImages then
      some ("Please capture at least " ++ toString config.minImages
        ++ " photos to submit.")
    else some "Please fill all required fields to submit."
  (isValid, errorMessage)

/-- `ValidationConfigBuilder<T>` from the source: a mutable holder of a
`ValidationConfig`, embedded by explicit state passing (each method
returns the updated builder state). -/
structure ValidationConfigBuilder where
  config : ValidationConfig

/-- The constructor `new ValidationConfigBuilder(minImages, baseFields)`:
empty rule arrays, no custom predicate. -/
def ValidationConfigBuilder.make (minImages : Nat)
    (baseFields : List String) : ValidationConfigBuilder :=
  ⟨{ minImages := minImages
     baseFields := baseFields
     conditionalFields := some []
     stringFields := some []
     customValidation := none }⟩

/-- `addConditionalFields`: push a conditional-requirement rule onto the
(created-if-absent) `conditionalFields` array. -/
def ValidationConfigBuilder.addConditionalFields (b : ValidationConfigBuilder)
    (conditionField : String) (conditionValue : Value)
    (requiredFields : List String) : ValidationConfigBuilder :=
  let existing := b.config.conditionalFields.getD []
  let rule : ConditionalFieldConfig :=
    { conditionField := conditionField
      conditionValue := conditionValue
      requiredFields := requiredFields }
  ⟨{ b.config with conditionalFields := some (existing ++ [rule]) }⟩

/-- `addStringField`: push a string-presence rule onto the
(created-if-absent) `stringFields` array; `negateCondition` defaults
to `false` in the source signature. -/
def ValidationConfigBuilder.addStringField (b : ValidationConfigBuilder)
    (conditionField : String) (conditionValue : Value)
    (stringField : String) (negateCondition : Bool) : ValidationConfigBuilder :=
  let existing := b.config.stringFields.getD []
  let rule : StringFieldConfig :=
    { conditionField := conditionField
      conditionValue := conditionValue
      stringField := stringField
      negateCondition := some negateCondition }
  ⟨{ b.config with stringFields := some (existing ++ [rule]) }⟩

/-- `addCustomValidation`: overwrite the single `customValidation` slot. -/
def ValidationConfigBuilder.addCustomValidation (b : ValidationConfigBuilder)
    (validationFn : Report → Bool) : ValidationConfigBuilder :=
  ⟨{ b.config with customValidation := some validationFn }⟩

/-- `build`: returns the accumulated configuration.  In the source this
returns `this.config` itself, by reference, without copying. -/
def ValidationConfigBuilder.build (b : ValidationConfigBuilder) : ValidationConfig :=
  b.config

/-- In the source, `build` returns the builder's internal `config` object
by reference, and the later builder methods mutate that same object
(`addConditionalFields` and `addStringField` push into its arrays,
`addCustomValidation` assigns its `customValidation` property).  The
configuration observable through a previously returned `build` reference
after further calls `ops` on the same builder is therefore the updated
builder's configuration. -/
def builtConfigAfter (b : ValidationConfigBuilder)
    (ops : ValidationConfigBuilder → ValidationConfigBuilder) : ValidationConfig :=
  (ops b).config

/-! Concrete records, configurations and images used to instantiate the
theorems below. -/

/-- A placeholder captured image; the evaluator never reads its fields. -/
def dummyImage : CapturedImage :=
  { id := "img", dataUrl := "data", latitude := 0, longitude := 0, timestamp := 0 }

/-- A second captured image with entirely different contents. -/
def otherImage : CapturedImage :=
  { id := "other", dataUrl := "zzzz", latitude := 7, longitude := 9, timestamp := 42 }

/-- The configuration of the spec's concrete scenario: two images minimum,
base field `status`, one string-presence rule `status = Hold → holdReason`. -/
def cfgScenario : ValidationConfig :=
  { minImages := 2
    baseFields := ["status"]
    conditionalFields := none
    stringFields := some [{ conditionField := "status"
                            conditionValue := Value.vStr "Hold"
                            stringField := "holdReason"
                            negateCondition := none }]
    customValidation := none }

/-- Record with `status = Hold` and a whitespace-only `holdReason`. -/
def recHoldBlank : Report :=
  [("status", Value.vStr "Hold"), ("holdReason", Value.vStr "  ")]

/-- Record with `status = Hold` and a substantive `holdReason`. -/
def recHoldFilled : Report :=
  [("status", Value.vStr "Hold"), ("holdReason", Value.vStr "pending docs")]

/-- Record with `status = Clear` and no other fields. -/
def recClear : Report :=
  [("status", Value.vStr "Clear")]

/-- A negated string-presence rule: `reason` is required unless
`status = Hold`. -/
def scNegated : StringFieldConfig :=
  { conditionField := "status"
    conditionValue := Value.vStr "Hold"
    stringField := "reason"
    negateCondition := some true }

/-- Conditional rule: `a = 1` requires `x`. -/
def ruleA : ConditionalFieldConfig :=
  { conditionField := "a", conditionValue := Value.vStr "1",
    requiredFields := ["x"] }

/-- Conditional rule: `b = 2` requires `y`. -/
def ruleB : ConditionalFieldConfig :=
  { conditionField := "b", conditionValue := Value.vStr "2",
    requiredFields := ["y"] }

/-- Configuration with two conditional rules on different condition
fields: `a = 1` requires `x`, and `b = 2` requires `y`. -/
def cfgTwoConditional : ValidationConfig :=
  { minImages := 0
    baseFields := []
    conditionalFields := some [ruleA, ruleB]
    stringFields := none
    customValidation := none }

/-- Record triggering both rules of `cfgTwoConditional`, satisfying the
first rule's `x` but lacking the second rule's `y`. -/
def recTwoConditional : Report :=
  [("a", Value.vStr "1"), ("b", Value.vStr "2"), ("x", Value.vStr "ok")]

/-- A builder with no requirements at all: zero minimum images, no base
fields. -/
def builderEmpty : ValidationConfigBuilder :=
  ValidationConfigBuilder.make 0 []

/-- A subsequent builder call: add a conditional rule making `holdReason`
required when `status = Hold`. -/
def opAddHoldRule : ValidationConfigBuilder → ValidationConfigBuilder :=
  fun b => b.addConditionalFields "status" (Value.vStr "Hold") ["holdReason"]

/-- Record with `status = Hold` and nothing else. -/
def recHoldOnly : Report :=
  [("status", Value.vStr "Hold")]

/-- Configuration whose base fields are bound to the number `0` and the
boolean `false` in `recFalsy`. -/
def cfgFalsy : ValidationConfig :=
  { minImages := 0
    baseFields := ["count", "flag"]
    conditionalFields := some
      [{ conditionField := "count", conditionValue := Value.vNum 0,
         requiredFields := ["flag"] }]
    stringFields := none
    customValidation := none }

/-- Record binding `count` to the number `0` and `flag` to `false`. -/
def recFalsy : Report :=
  [("count", Value.vNum 0), ("flag", Value.vBool false)]

/-! Helper lemmas about the evaluator's building blocks. -/

/-- `checkStringField` succeeds exactly on a string value that is
non-empty after trimming. -/
theorem checkStringField_iff (r : Report) (f : String) :
    checkStringField r f = true ↔
      ∃ s, getField r f = Value.vStr s ∧ jsTrim s ≠ "" := by
  cases h : getField r f <;> simp [checkStringField, h]

/-- The single-field presence test fails exactly on `null`, `undefined`
and the empty string. -/
theorem fieldOk_eq_false_iff (r : Report) (f : String) :
    fieldOk r f = false ↔
      (getField r f = Value.vNull ∨ getField r f = Value.vUndefined ∨
        getField r f = Value.vStr "") := by
  cases h : getField r f <;> simp [fieldOk, h]

/-- A field bound to the number `0` or the boolean `false` passes the
presence test. -/
theorem fieldOk_of_falsy (r : Report) (f : String)
    (h : getField r f = Value.vNum 0 ∨ getField r f = Value.vBool false) :
    fieldOk r f = true := by
  rcases h with h | h <;> simp [fieldOk, h]

/-- `checkFields` fails as soon as one listed field fails the presence
test. -/
theorem checkFields_eq_false_of_mem (r : Report) (fields : List String)
    (f : String) (hf : f ∈ fields) (h : fieldOk r f = false) :
    checkFields r fields = false := by
  unfold checkFields
  rw [List.all_eq_false]
  exact ⟨f, hf, by simp [h]⟩

/-- `checkFields` succeeds when every listed field passes the presence
test. -/
theorem checkFields_eq_true_of_forall (r : Report) (fields : List String)
    (h : ∀ f ∈ fields, fieldOk r f = true) :
    checkFields r fields = true := by
  unfold checkFields
  rw [List.all_eq_true]
  exact fun f hf => h f hf

/-- `validateForm` reads the image list only through its length. -/
theorem validateForm_eq_of_length_eq (report : Option Report)
    (config : ValidationConfig) (imgs imgs' : List CapturedImage)
    (h : imgs.length = imgs'.length) :
    validateForm report imgs config = validateForm report imgs' config := by
  cases report with
  | none => rfl
  | some r => unfold validateForm; rw [h]

/-- `useFormValidation` reads the image list only through its length. -/
theorem useFormValidation_eq_of_length_eq (report : Option Report)
    (config : ValidationConfig) (imgs imgs' : List CapturedImage)
    (h : imgs.length = imgs'.length) :
    useFormValidation report imgs config = useFormValidation report imgs' config := by
  unfold useFormValidation
  rw [validateForm_eq_of_length_eq report config imgs imgs' h, h]

/-! The claims. -/

/-- C1: with minimum 2 images, base field `status`, and the string rule
`status = Hold → holdReason`: a whitespace-only `holdReason` fails at
two images, a substantive one passes at two images, and at one image a
`status = Clear` record fails with the two-photo message. -/
theorem c1_concrete_hold_scenario (imgs2 imgs1 : List CapturedImage)
    (h2 : imgs2.length = 2) (h1 : imgs1.length = 1) :
    validateForm (some recHoldBlank) imgs2 cfgScenario = false ∧
    validateForm (some recHoldFilled) imgs2 cfgScenario = true ∧
    useFormValidation (some recClear) imgs1 cfgScenario =
      (false, some "Please capture at least 2 photos to submit.") := by
  refine ⟨?_, ?_, ?_⟩
  · rw [validateForm_eq_of_length_eq _ _ imgs2 [dummyImage, dummyImage]
      (by simp [h2])]
    decide
  · rw [validateForm_eq_of_length_eq _ _ imgs2 [dummyImage, dummyImage]
      (by simp [h2])]
    decide
  · rw [useFormValidation_eq_of_length_eq _ _ imgs1 [dummyImage]
      (by simp [h1])]
    decide

/-- Witness for C1 at concrete image lists of lengths 2 and 1. -/
theorem c1_concrete_hold_scenario_witness :
    ([dummyImage, dummyImage] : List CapturedImage).length = 2 ∧
    ([dummyImage] : List CapturedImage).length = 1 ∧
    validateForm (some recHoldFilled) [dummyImage, dummyImage] cfgScenario = true :=
  ⟨by decide, by decide,
    (c1_concrete_hold_scenario [dummyImage, dummyImage] [dummyImage]
      (by decide) (by decide)).2.1⟩

/-- C2: an absent report fails for every image list and configuration,
and the classifier yields exactly the report-unavailable message. -/
theorem c2_absent_report (images : List CapturedImage)
    (config : ValidationConfig) :
    validateForm none images config = false ∧
    useFormValidation none images config =
      (false, some "Report data is not available.") := by
  constructor
  · rfl
  · simp [useFormValidation, validateForm]

/-- C3: with fewer images than the configured minimum, evaluation fails
for every record, and for a present record the classifier yields the
photos message parameterized with the configured minimum. -/
theorem c3_below_minimum_images (config : ValidationConfig)
    (images : List CapturedImage) (h : images.length < config.minImages) :
    (∀ report, validateForm report images config = false) ∧
    (∀ r : Report, useFormValidation (some r) images config =
      (false, some ("Please capture at least " ++ toString config.minImages
        ++ " photos to submit."))) := by
  have hv : ∀ report, validateForm report images config = false := by
    intro report
    cases report with
    | none => rfl
    | some r => simp [validateForm, h]
  refine ⟨hv, fun r => ?_⟩
  simp [useFormValidation, hv (some r), h]

/-- Witness for C3: one image against the two-image scenario
configuration. -/
theorem c3_below_minimum_images_witness :
    ([dummyImage] : List CapturedImage).length < cfgScenario.minImages ∧
    validateForm (some recClear) [dummyImage] cfgScenario = false :=
  ⟨by decide,
    (c3_below_minimum_images cfgScenario [dummyImage] (by decide)).1
      (some recClear)⟩

/-- C4: a base field whose value is null, undefined (absent from the
record), or the empty string fails the whole evaluation. -/
theorem c4_missing_base_field (r : Report) (images : List CapturedImage)
    (config : ValidationConfig) (f : String)
    (hmem : f ∈ config.baseFields)
    (hbad : getField r f = Value.vNull ∨ getField r f = Value.vUndefined ∨
      getField r f = Value.vStr "") :
    validateForm (some r) images config = false := by
  have hc : checkFields r config.baseFields = false :=
    checkFields_eq_false_of_mem r config.baseFields f hmem
      ((fieldOk_eq_false_iff r f).mpr hbad)
  simp [validateForm, hc]

/-- Witness for C4: the empty record lacks the base field `status`. -/
theorem c4_missing_base_field_witness :
    ("status" ∈ cfgScenario.baseFields ∧
      getField [] "status" = Value.vUndefined) ∧
    validateForm (some []) [dummyImage, dummyImage] cfgScenario = false :=
  ⟨⟨by decide, by decide⟩,
    c4_missing_base_field [] [dummyImage, dummyImage] cfgScenario "status"
      (by decide) (Or.inr (Or.inl (by decide)))⟩

/-- C5: a negated string-presence rule requires its target (a string,
non-empty after trimming) exactly when the condition field differs from
the condition value and is exempt on equality; an unnegated rule
triggers on equality and is exempt on inequality. -/
theorem c5_negate_flag_inversion (r : Report) (sc : StringFieldConfig) :
    (sc.negateCondition.getD false = true →
      ((getField r sc.conditionField ≠ sc.conditionValue →
          (stringRuleOk r sc = true ↔
            ∃ s, getField r sc.stringField = Value.vStr s ∧ jsTrim s ≠ "")) ∧
        (getField r sc.conditionField = sc.conditionValue →
          stringRuleOk r sc = true))) ∧
    (sc.negateCondition.getD false = false →
      ((getField r sc.conditionField = sc.conditionValue →
          (stringRuleOk r sc = true ↔
            ∃ s, getField r sc.stringField = Value.vStr s ∧ jsTrim s ≠ "")) ∧
        (getField r sc.conditionField ≠ sc.conditionValue →
          stringRuleOk r sc = true))) := by
  constructor
  · intro hneg
    constructor
    · intro hcond
      rw [← checkStringField_iff]
      simp [stringRuleOk, hneg, hcond]
    · intro hcond
      simp [stringRuleOk, hneg, hcond]
  · intro hneg
    constructor
    · intro hcond
      rw [← checkStringField_iff]
      simp [stringRuleOk, hneg, hcond]
    · intro hcond
      simp [stringRuleOk, hneg, hcond]

/-- Witness for C5: the negated rule is exempt when `status = Hold`. -/
theorem c5_negate_flag_inversion_witness :
    (scNegated.negateCondition.getD false = true ∧
      getField recHoldOnly scNegated.conditionField = scNegated.conditionValue) ∧
    stringRuleOk recHoldOnly scNegated = true :=
  ⟨⟨by decide, by decide⟩,
    ((c5_negate_flag_inversion recHoldOnly scNegated).1 (by decide)).2
      (by decide)⟩

/-- C6: conditional rules combine by logical AND and are independent:
with two triggered rules on different condition fields, satisfying all
of the first rule's required fields while one of the second rule's
required fields is missing still fails the evaluation. -/
theorem c6_conditional_rules_independent (config : ValidationConfig)
    (r : Report) (images : List CapturedImage)
    (ca cb : ConditionalFieldConfig)
    (_hmema : ca ∈ config.conditionalFields.getD [])
    (hmemb : cb ∈ config.conditionalFields.getD [])
    (_hdiff : ca.conditionField ≠ cb.conditionField)
    (_htriga : getField r ca.conditionField = ca.conditionValue)
    (htrigb : getField r cb.conditionField = cb.conditionValue)
    (_hsata : checkFields r ca.requiredFields = true)
    (f : String) (hf : f ∈ cb.requiredFields)
    (hmiss : getField r f = Value.vNull ∨ getField r f = Value.vUndefined ∨
      getField r f = Value.vStr "") :
    validateForm (some r) images config = false := by
  have hcf : checkFields r cb.requiredFields = false :=
    checkFields_eq_false_of_mem r cb.requiredFields f hf
      ((fieldOk_eq_false_iff r f).mpr hmiss)
  have hrule : conditionalRuleOk r cb = false := by
    simp [conditionalRuleOk, htrigb, hcf]
  have hall : (config.conditionalFields.getD []).all
      (fun c => conditionalRuleOk r c) = false := by
    rw [List.all_eq_false]
    exact ⟨cb, hmemb, by simp [hrule]⟩
  simp [validateForm, hall]

/-- Witness for C6: both rules of `cfgTwoConditional` trigger on
`recTwoConditional`; the first rule's `x` is present, the second
rule's `y` is absent, and evaluation fails. -/
theorem c6_conditional_rules_independent_witness :
    (ruleA ∈ cfgTwoConditional.conditionalFields.getD [] ∧
      ruleB ∈ cfgTwoConditional.conditionalFields.getD [] ∧
      ruleA.conditionField ≠ ruleB.conditionField ∧
      getField recTwoConditional ruleA.conditionField = ruleA.conditionValue ∧
      getField recTwoConditional ruleB.conditionField = ruleB.conditionValue ∧
      checkFields recTwoConditional ruleA.requiredFields = true ∧
      "y" ∈ ruleB.requiredFields ∧
      getField recTwoConditional "y" = Value.vUndefined) ∧
    validateForm (some recTwoConditional) [] cfgTwoConditional = false :=
  ⟨by decide,
    c6_conditional_rules_independent cfgTwoConditional recTwoConditional []
      ruleA ruleB (by decide) (by decide) (by decide) (by decide) (by decide)
      (by decide) "y" (by decide) (Or.inr (Or.inl (by decide)))⟩

/-- C7 counterexample: `build` returns the builder's live internal
configuration, not a snapshot, so a subsequent `addConditionalFields`
call changes the evaluation result of `validateForm` applied to the
previously built configuration. -/
theorem c7_snapshot_counterexample :
    validateForm (some recHoldOnly) []
        (builtConfigAfter builderEmpty opAddHoldRule) ≠
      validateForm (some recHoldOnly) [] builderEmpty.build := by
  decide

/-- C7 amended: the previously built configuration of the no-requirement
builder accepts `recHoldOnly`, but after the subsequent
`addConditionalFields` call on the same builder the configuration seen
through the earlier `build` reference rejects it. -/
theorem c7_build_returns_live_reference :
    validateForm (some recHoldOnly) [] builderEmpty.build = true ∧
    validateForm (some recHoldOnly) []
      (builtConfigAfter builderEmpty opAddHoldRule) = false := by
  decide

/-- C8: the builder's custom predicate is a single slot: a second
`addCustomValidation` call overwrites the first, so the built
configuration's custom validation is exactly the second predicate. -/
theorem c8_custom_validation_single_slot (b : ValidationConfigBuilder)
    (f g : Report → Bool) :
    ((b.addCustomValidation f).addCustomValidation g).build.customValidation
      = some g := rfl

/-- C9: evaluation is deterministic, and it reads the image list only
through its length: any two image lists of equal length (with arbitrary
differing contents) give the same result. -/
theorem c9_count_only_dependence (record : Option Report)
    (config : ValidationConfig) (imgs imgs' : List CapturedImage)
    (h : imgs.length = imgs'.length) :
    validateForm record imgs config = validateForm record imgs config ∧
    validateForm record imgs config = validateForm record imgs' config :=
  ⟨rfl, validateForm_eq_of_length_eq record config imgs imgs' h⟩

/-- Witness for C9: two singleton image lists with entirely different
contents evaluate identically. -/
theorem c9_count_only_dependence_witness :
    ([dummyImage] : List CapturedImage).length =
      ([otherImage] : List CapturedImage).length ∧
    validateForm (some recClear) [dummyImage] cfgScenario =
      validateForm (some recClear) [otherImage] cfgScenario :=
  ⟨by decide,
    (c9_count_only_dependence (some recClear) cfgScenario [dummyImage]
      [otherImage] (by decide)).2⟩

/-- C10: the values `0` and `false` count as present: when every base
field and every triggered conditional required field of the record is
bound to the number 0 or the boolean false and the remaining checks
pass, evaluation succeeds; moreover the presence test rejects exactly
null, undefined and the empty string. -/
theorem c10_falsy_values_present (config : ValidationConfig) (r : Report)
    (images : List CapturedImage)
    (himg : config.minImages ≤ images.length)
    (hbase : ∀ f ∈ config.baseFields,
      getField r f = Value.vNum 0 ∨ getField r f = Value.vBool false)
    (hcond : ∀ c ∈ config.conditionalFields.getD [],
      getField r c.conditionField = c.conditionValue →
        ∀ f ∈ c.requiredFields,
          getField r f = Value.vNum 0 ∨ getField r f = Value.vBool false)
    (hstr : (config.stringFields.getD []).all (fun sc => stringRuleOk r sc) = true)
    (hcustom : ∀ fn, config.customValidation = some fn → fn r = true) :
    validateForm (some r) images config = true ∧
    (∀ (r' : Report) (f : String), fieldOk r' f = false ↔
      (getField r' f = Value.vNull ∨ getField r' f = Value.vUndefined ∨
        getField r' f = Value.vStr "")) := by
  refine ⟨?_, fieldOk_eq_false_iff⟩
  have hb : checkFields r config.baseFields = true :=
    checkFields_eq_true_of_forall r config.baseFields
      (fun f hf => fieldOk_of_falsy r f (hbase f hf))
  have hcall : (config.conditionalFields.getD []).all
      (fun c => conditionalRuleOk r c) = true := by
    rw [List.all_eq_true]
    intro c hc
    unfold conditionalRuleOk
    split
    · next htrig =>
      exact checkFields_eq_true_of_forall r c.requiredFields
        (fun f hf => fieldOk_of_falsy r f (hcond c hc htrig f hf))
    · rfl
  cases hcv : config.customValidation with
  | none => simp [validateForm, hb, hcall, hstr, hcv, Nat.not_lt.mpr himg]
  | some fn =>
    simp [validateForm, hb, hcall, hstr, hcv, Nat.not_lt.mpr himg,
      hcustom fn hcv]

/-- Witness for C10: base fields bound to the number 0 and the boolean
false pass with no images against a zero-minimum configuration. -/
theorem c10_falsy_values_present_witness :
    (cfgFalsy.minImages ≤ ([] : List CapturedImage).length ∧
      getField recFalsy "count" = Value.vNum 0 ∧
      getField recFalsy "flag" = Value.vBool false) ∧
    validateForm (some recFalsy) [] cfgFalsy = true :=
  ⟨⟨by decide, by decide, by decide⟩,
    (c10_falsy_values_present cfgFalsy recFalsy [] (by decide) (by decide)
      (by decide) (by decide) (fun fn h => Option.noConfusion h)).1⟩

end CaseFlow
